import Mathlib

/-!
Verification of the goal-dashboard domain model (`src/models.py`).

The Python classes `Pruefungsleistung`, `Modul`, `Semester` and `Studiengang`
are embedded shallowly: Python `float` grades become `ℚ`, Python `int` credit
fields become `ℤ`, `datetime.date` becomes the `PDate` structure below, and the
JSON documents produced by `json.dump`/`json.load` become the `JValue`
inductive (Python's `json` module round-trips these documents exactly, so
`save_to_file`/`load_from_file` are modelled as `to_dict`/`from_dict` on the
`JValue` document).  Fallible deserialization (`KeyError`, `TypeError`,
`ValueError` from `date.fromisoformat`) is modelled with `Option`: `none`
means the Python code raises.
-/

/-- JSON values as produced by Python's `json` module for this schema. The
schema never produces booleans, so they are omitted; integers and floats are
both carried as `ℚ` (an integer is a `jnum` with denominator 1, matching the
set of values `json.dump` writes for `int` fields). -/
inductive JValue where
  | jnull : JValue
  | jnum : ℚ → JValue
  | jstr : String → JValue
  | jarr : List JValue → JValue
  | jobj : List (String × JValue) → JValue

/-- Python truthiness (`if data.get("pruefungsleistung"):`) restricted to the
JSON values above: `null`, `0`, `""`, `[]` and `{}` are falsy. -/
def jTruthy : JValue → Bool
  | .jnull => false
  | .jnum q => decide (q ≠ 0)
  | .jstr s => decide (s ≠ "")
  | .jarr l => !l.isEmpty
  | .jobj l => !l.isEmpty

/-- Extract an object's key/value list (`data` must be a `dict`). -/
def asObj : JValue → Option (List (String × JValue))
  | .jobj l => some l
  | _ => none

/-- Extract an array (`data["module"]` must be iterable). -/
def asArr : JValue → Option (List JValue)
  | .jarr l => some l
  | _ => none

/-- Extract a number (a schema-conformant `note` field). -/
def asNum : JValue → Option ℚ
  | .jnum q => some q
  | _ => none

/-- Extract a string (a schema-conformant `datum`/`status`/`name` field). -/
def asStr : JValue → Option String
  | .jstr s => some s
  | _ => none

/-- Extract an integer (a schema-conformant `ects` field: a JSON number with
denominator 1, which is what `json.dump` writes for Python `int`s). -/
def asInt : JValue → Option ℤ
  | .jnum q => if q.den = 1 then some q.num else none
  | _ => none

/-- A calendar date, embedding Python's `datetime.date` (year, month, day). -/
structure PDate where
  year : ℕ
  month : ℕ
  day : ℕ
deriving DecidableEq, Repr

/-- Gregorian leap-year rule, as used by `datetime.date`. -/
def isLeapYear (y : ℕ) : Bool :=
  (y % 4 == 0 && y % 100 != 0) || y % 400 == 0

/-- Number of days in a month of a given year. -/
def daysInMonth (y m : ℕ) : ℕ :=
  if m = 2 then (if isLeapYear y then 29 else 28)
  else if m = 4 ∨ m = 6 ∨ m = 9 ∨ m = 11 then 30
  else 31

/-- The validity invariant `datetime.date` enforces at construction. -/
def PDate.valid (d : PDate) : Bool :=
  decide (1 ≤ d.year) && decide (d.year ≤ 9999) &&
  decide (1 ≤ d.month) && decide (d.month ≤ 12) &&
  decide (1 ≤ d.day) && decide (d.day ≤ daysInMonth d.year d.month)

/-- The decimal digit character for `n % 10`. -/
def digitChar (n : ℕ) : Char := Char.ofNat (48 + n % 10)

/-- Two-digit zero-padded decimal rendering (`%02d` for values below 100). -/
def pad2 (n : ℕ) : List Char := [digitChar (n / 10), digitChar n]

/-- Four-digit zero-padded decimal rendering (`%04d` for values below 10000). -/
def pad4 (n : ℕ) : List Char :=
  [digitChar (n / 1000), digitChar (n / 100), digitChar (n / 10), digitChar n]

/-- Embeds `date.isoformat()`: the `YYYY-MM-DD` rendering of a date (dates
held by `datetime.date` always satisfy `PDate.valid`, so the four/two digit
paddings are exact). -/
def PDate.isoformat (d : PDate) : String :=
  ⟨pad4 d.year ++ '-' :: pad2 d.month ++ '-' :: pad2 d.day⟩

/-- Numeric value of a decimal digit character, `none` on a non-digit. -/
def digitVal (c : Char) : Option ℕ :=
  if c.isDigit then some (c.toNat - 48) else none

/-- Core of `date.fromisoformat`: parse exactly `YYYY-MM-DD` and validate the
resulting calendar date, failing (Python: `ValueError`) otherwise. -/
def parseIso : List Char → Option PDate
  | [y1, y2, y3, y4, c1, m1, m2, c2, d1, d2] =>
    if c1 = '-' ∧ c2 = '-' then
      (digitVal y1).bind fun a =>
      (digitVal y2).bind fun b =>
      (digitVal y3).bind fun c =>
      (digitVal y4).bind fun e =>
      (digitVal m1).bind fun f =>
      (digitVal m2).bind fun g =>
      (digitVal d1).bind fun h =>
      (digitVal d2).bind fun i =>
      let dt : PDate := ⟨a * 1000 + b * 100 + c * 10 + e, f * 10 + g, h * 10 + i⟩
      if dt.valid then some dt else none
    else none
  | _ => none

/-- Embeds `date.fromisoformat` on the canonical `YYYY-MM-DD` form that
`isoformat` writes; any other string fails with a `ValueError`. -/
def PDate.fromIsoformat (s : String) : Option PDate := parseIso s.toList

/-- Embeds `Pruefungsleistung`: one exam outcome. The Python constructor's
`status` parameter defaults to `"bestanden"`, mirrored by the field default. -/
structure Pruefungsleistung where
  note : ℚ
  datum : PDate
  status : String := "bestanden"
deriving DecidableEq, Repr

/-- Embeds `Pruefungsleistung.ist_bestanden`:
`self.note <= 4.0 and self.status == "bestanden"`. -/
def Pruefungsleistung.ist_bestanden (p : Pruefungsleistung) : Bool :=
  decide (p.note ≤ 4) && (p.status == "bestanden")

/-- Embeds `Pruefungsleistung.to_dict`. -/
def Pruefungsleistung.to_dict (p : Pruefungsleistung) : JValue :=
  .jobj [("note", .jnum p.note), ("datum", .jstr p.datum.isoformat),
         ("status", .jstr p.status)]

/-- Embeds `Pruefungsleistung.from_dict`: indexing a missing key raises
`KeyError` and a malformed date string raises `ValueError`, both modelled as
`none`. -/
def Pruefungsleistung.from_dict (j : JValue) : Option Pruefungsleistung := do
  let d ← asObj j
  let note ← (d.lookup "note").bind asNum
  let datumStr ← (d.lookup "datum").bind asStr
  let datum ← PDate.fromIsoformat datumStr
  let status ← (d.lookup "status").bind asStr
  pure { note := note, datum := datum, status := status }

/-- Embeds `Modul`: a study unit with ECTS credits and an optional exam. -/
structure Modul where
  name : String
  ects : ℤ
  pruefungsleistung : Option Pruefungsleistung := none
deriving DecidableEq, Repr

/-- Embeds `Modul.ist_bestanden`:
`self.pruefungsleistung is not None and self.pruefungsleistung.ist_bestanden()`. -/
def Modul.ist_bestanden (m : Modul) : Bool :=
  match m.pruefungsleistung with
  | some p => p.ist_bestanden
  | none => false

/-- Embeds `Modul.get_note`: the grade if an exam record is present. -/
def Modul.get_note (m : Modul) : Option ℚ :=
  m.pruefungsleistung.map (fun p => p.note)

/-- Embeds `Modul.to_dict`. -/
def Modul.to_dict (m : Modul) : JValue :=
  .jobj [("name", .jstr m.name), ("ects", .jnum (m.ects : ℚ)),
         ("pruefungsleistung",
           match m.pruefungsleistung with
           | some p => p.to_dict
           | none => .jnull)]

/-- Embeds `Modul.from_dict`: `data.get("pruefungsleistung")` is `None` when
the key is missing, and the nested record is only parsed when the value is
truthy (so `null` and missing both yield no exam record). -/
def Modul.from_dict (j : JValue) : Option Modul := do
  let d ← asObj j
  let pl ← match d.lookup "pruefungsleistung" with
    | some v =>
        if jTruthy v then (Pruefungsleistung.from_dict v).map some else pure none
    | none => pure none
  let name ← (d.lookup "name").bind asStr
  let ects ← (d.lookup "ects").bind asInt
  pure { name := name, ects := ects, pruefungsleistung := pl }

/-- Embeds a Python list comprehension over a fallible element parser: the
whole list fails as soon as one element raises. -/
def mapOrFail {α : Type} (f : JValue → Option α) : List JValue → Option (List α)
  | [] => some []
  | j :: rest => (f j).bind fun x => (mapOrFail f rest).bind fun xs => some (x :: xs)

/-- Embeds `Semester`: an ordered collection of modules. -/
structure Semester where
  nummer : ℤ
  geplante_ects : ℤ
  module : List Modul := []
deriving DecidableEq, Repr

/-- Embeds `Semester.ist_abgeschlossen`: `False` on an empty module list,
otherwise `all(modul.ist_bestanden() for modul in self.module)`. -/
def Semester.ist_abgeschlossen (s : Semester) : Bool :=
  !s.module.isEmpty && s.module.all Modul.ist_bestanden

/-- Embeds `Semester.berechne_ects`:
`sum(modul.ects for modul in self.module if modul.ist_bestanden())`. -/
def Semester.berechne_ects (s : Semester) : ℤ :=
  ((s.module.filter Modul.ist_bestanden).map Modul.ects).sum

/-- Embeds `Semester.get_durchschnittsnote`. `modul.get_note()` is never
`None` on a passed module (passing requires an exam record), so the Python
expression `modul.get_note() * modul.ects` is rendered with `Option.getD 0`;
the default is unreachable on the filtered list. -/
def Semester.get_durchschnittsnote (s : Semester) : Option ℚ :=
  let bestandene_module := s.module.filter Modul.ist_bestanden
  if bestandene_module.isEmpty then none
  else
    let weighted_sum :=
      (bestandene_module.map (fun m => m.get_note.getD 0 * (m.ects : ℚ))).sum
    let total_ects := (bestandene_module.map Modul.ects).sum
    if 0 < total_ects then some (weighted_sum / (total_ects : ℚ)) else none

/-- Embeds `Semester.add_modul`: appends to the module list. -/
def Semester.add_modul (s : Semester) (m : Modul) : Semester :=
  { s with module := s.module ++ [m] }

/-- Embeds `Semester.to_dict`. -/
def Semester.to_dict (s : Semester) : JValue :=
  .jobj [("nummer", .jnum (s.nummer : ℚ)),
         ("geplante_ects", .jnum (s.geplante_ects : ℚ)),
         ("module", .jarr (s.module.map Modul.to_dict))]

/-- Embeds `Semester.from_dict`: `data.get("module", [])` tolerates a missing
`"module"` key (defaulting to the empty list), while `data["nummer"]` and
`data["geplante_ects"]` raise `KeyError` when missing. -/
def Semester.from_dict (j : JValue) : Option Semester := do
  let d ← asObj j
  let moduleJson ← match d.lookup "module" with
    | some v => asArr v
    | none => pure []
  let module ← mapOrFail Modul.from_dict moduleJson
  let nummer ← (d.lookup "nummer").bind asInt
  let geplante ← (d.lookup "geplante_ects").bind asInt
  pure { nummer := nummer, geplante_ects := geplante, module := module }

/-- Embeds `Studiengang`: the complete study program. -/
structure Studiengang where
  name : String
  ects_gesamt : ℤ
  semester : List Semester := []
deriving DecidableEq, Repr

/-- Embeds `Studiengang.berechne_gesamtfortschritt`:
`(erreichte_ects / self.ects_gesamt) * 100 if self.ects_gesamt > 0 else 0.0`. -/
def Studiengang.berechne_gesamtfortschritt (p : Studiengang) : ℚ :=
  let erreichte_ects := (p.semester.map Semester.berechne_ects).sum
  if 0 < p.ects_gesamt then ((erreichte_ects : ℚ) / (p.ects_gesamt : ℚ)) * 100
  else 0

/-- Embeds `Studiengang.berechne_notenschnitt`: collect every passed module
across all semesters, return `0.0` when there are none, otherwise the
credit-weighted mean (with the same defensive `total_ects > 0` guard and the
same `Option.getD 0` rendering of `get_note()` as the semester average). -/
def Studiengang.berechne_notenschnitt (p : Studiengang) : ℚ :=
  let alle_module :=
    (p.semester.map (fun s => s.module.filter Modul.ist_bestanden)).flatten
  if alle_module.isEmpty then 0
  else
    let weighted_sum :=
      (alle_module.map (fun m => m.get_note.getD 0 * (m.ects : ℚ))).sum
    let total_ects := (alle_module.map Modul.ects).sum
    if 0 < total_ects then weighted_sum / (total_ects : ℚ) else 0

/-- Embeds `Studiengang.get_erreichte_ects`: total ECTS earned. -/
def Studiengang.get_erreichte_ects (p : Studiengang) : ℤ :=
  (p.semester.map Semester.berechne_ects).sum

/-- Helper for `get_aktuelles_semester`: the `for`-loop returning the first
semester that is not completed. -/
def firstIncomplete : List Semester → Option Semester
  | [] => none
  | s :: rest => if s.ist_abgeschlossen then firstIncomplete rest else some s

/-- Embeds `Studiengang.get_aktuelles_semester`: first incomplete semester in
stored order, `None` if every semester is completed. -/
def Studiengang.get_aktuelles_semester (p : Studiengang) : Option Semester :=
  firstIncomplete p.semester

/-- Embeds `Studiengang.add_semester`: appends to the semester list. -/
def Studiengang.add_semester (p : Studiengang) (s : Semester) : Studiengang :=
  { p with semester := p.semester ++ [s] }

/-- Embeds `Studiengang.to_dict`. -/
def Studiengang.to_dict (p : Studiengang) : JValue :=
  .jobj [("name", .jstr p.name), ("ects_gesamt", .jnum (p.ects_gesamt : ℚ)),
         ("semester", .jarr (p.semester.map Semester.to_dict))]

/-- Embeds `Studiengang.from_dict`: `data.get("semester", [])` tolerates a
missing `"semester"` key, while `data["name"]` and `data["ects_gesamt"]`
raise `KeyError` when missing. -/
def Studiengang.from_dict (j : JValue) : Option Studiengang := do
  let d ← asObj j
  let semesterJson ← match d.lookup "semester" with
    | some v => asArr v
    | none => pure []
  let semester ← mapOrFail Semester.from_dict semesterJson
  let name ← (d.lookup "name").bind asStr
  let gesamt ← (d.lookup "ects_gesamt").bind asInt
  pure { name := name, ects_gesamt := gesamt, semester := semester }

/-- Embeds `Studiengang.save_to_file`: `json.dump(self.to_dict(), f)`. The
file contents are modelled as the JSON document itself (Python's `json`
module round-trips these documents exactly). -/
def Studiengang.save_to_file (p : Studiengang) : JValue :=
  p.to_dict

/-- Embeds `Studiengang.load_from_file`: `from_dict(json.load(f))`. -/
def Studiengang.load_from_file (j : JValue) : Option Studiengang :=
  Studiengang.from_dict j

/-- Well-formedness carried implicitly by Python's `datetime.date`: every
date stored in a `Pruefungsleistung` is a valid calendar date. -/
def Pruefungsleistung.wf (p : Pruefungsleistung) : Bool :=
  p.datum.valid

/-- A module is well-formed when its optional exam record is. -/
def Modul.wf (m : Modul) : Bool :=
  match m.pruefungsleistung with
  | some p => p.wf
  | none => true

/-- A semester is well-formed when all its modules are. -/
def Semester.wf (s : Semester) : Bool :=
  s.module.all Modul.wf

/-- A program is well-formed when all its semesters are. -/
def Studiengang.wf (p : Studiengang) : Bool :=
  p.semester.all Semester.wf


/-- Concrete program used by the end-to-end witnesses (spec section 8,
scenario 7): one semester, one 5-credit module graded 2.3. -/
def exDatum : PDate := ⟨2024, 1, 15⟩

/-- A passed exam with grade 2.3 (status defaulted to `"bestanden"`). -/
def exPruefung : Pruefungsleistung := { note := 23 / 10, datum := exDatum }

/-- A 5-credit module carrying `exPruefung`. -/
def exModul : Modul :=
  { name := "Test Module", ects := 5, pruefungsleistung := some exPruefung }

/-- Semester 1 with `exModul` only. -/
def exSemester : Semester := { nummer := 1, geplante_ects := 30, module := [exModul] }

/-- The "Test Program" of the end-to-end scenario: target 180 credits. -/
def exProgram : Studiengang :=
  { name := "Test Program", ects_gesamt := 180, semester := [exSemester] }

/-- Passed module: 4 credits, grade 1.0 (weighted-GPA scenario). -/
def modulA : Modul :=
  { name := "Analysis", ects := 4, pruefungsleistung := some { note := 1, datum := exDatum } }

/-- Passed module: 8 credits, grade 4.0 (weighted-GPA scenario). -/
def modulB : Modul :=
  { name := "Algebra", ects := 8, pruefungsleistung := some { note := 4, datum := exDatum } }

/-- Failed module: grade 5.0 with status `"nicht bestanden"`. -/
def modulF : Modul :=
  { name := "Physik", ects := 5,
    pruefungsleistung := some { note := 5, datum := exDatum, status := "nicht bestanden" } }

/-- Semester holding the two weighted-GPA modules (credits 4 and 8). -/
def semWeighted : Semester :=
  { nummer := 1, geplante_ects := 30, module := [modulA, modulB] }

/-- A completed semester whose `nummer` field (4) diverges from its stored
position (first). -/
def semDoneA : Semester := { nummer := 4, geplante_ects := 30, module := [modulA] }

/-- A second completed semester, stored second but numbered 3. -/
def semDoneB : Semester := { nummer := 3, geplante_ects := 30, module := [modulB] }

/-- An incomplete semester (its only module is failed), stored third. -/
def semOpenC : Semester := { nummer := 2, geplante_ects := 30, module := [modulF] }

/-- An empty (hence incomplete) semester, stored fourth. -/
def semOpenD : Semester := { nummer := 1, geplante_ects := 30, module := [] }

/-- Program of the current-semester scenario: stored order
[complete, complete, incomplete, incomplete] with diverging `nummer` fields. -/
def exProgram4 : Studiengang :=
  { name := "Informatik", ects_gesamt := 120,
    semester := [semDoneA, semDoneB, semOpenC, semOpenD] }

/-- One-semester program around `semWeighted`, for the program-level GPA
witness. -/
def exProgramW : Studiengang :=
  { name := "Mathematik", ects_gesamt := 60, semester := [semWeighted] }

/-- Test-fixture document: a program document with name and total target
wrapping one given semester object. -/
def docWithSem (pn : String) (g : ℚ) (sem : JValue) : JValue :=
  .jobj [("name", .jstr pn), ("ects_gesamt", .jnum g),
         ("semester", .jarr [sem])]

/-- Test-fixture document: a complete program and semester wrapping one given
module object. -/
def docWithModul (pn : String) (g n ge : ℚ) (m : JValue) : JValue :=
  docWithSem pn g
    (.jobj [("nummer", .jnum n), ("geplante_ects", .jnum ge),
            ("module", .jarr [m])])

/-- Test-fixture document: a complete program, semester and module wrapping
one given exam-record value. -/
def docWithExam (pn : String) (g n ge : ℚ) (mn : String) (e : ℚ)
    (pl : JValue) : JValue :=
  docWithModul pn g n ge
    (.jobj [("name", .jstr mn), ("ects", .jnum e), ("pruefungsleistung", pl)])

theorem daysInMonth_le (y m : ℕ) : daysInMonth y m ≤ 31 := by
  unfold daysInMonth
  split
  · split <;> norm_num
  · split <;> norm_num

theorem digitVal_digitChar (n : ℕ) : digitVal (digitChar n) = some (n % 10) := by
  have h : n % 10 < 10 := Nat.mod_lt _ (by norm_num)
  unfold digitChar digitVal
  generalize hk : n % 10 = k at h ⊢
  interval_cases k <;> rfl

theorem parseIso_pad (y m dd : ℕ) (hy : y ≤ 9999) (hm : m ≤ 12) (hd31 : dd ≤ 31)
    (hv : PDate.valid ⟨y, m, dd⟩ = true) :
    parseIso (pad4 y ++ '-' :: pad2 m ++ '-' :: pad2 dd) = some ⟨y, m, dd⟩ := by
  have ey : y / 1000 % 10 * 1000 + y / 100 % 10 * 100 + y / 10 % 10 * 10 + y % 10 = y := by
    omega
  have em : m / 10 % 10 * 10 + m % 10 = m := by omega
  have ed : dd / 10 % 10 * 10 + dd % 10 = dd := by omega
  simp only [pad4, pad2, List.cons_append, List.nil_append, parseIso,
    digitVal_digitChar, Option.some_bind]
  rw [if_pos (⟨trivial, trivial⟩ : True ∧ True)]
  rw [ey, em, ed, hv]
  rfl

/-- Parsing inverts printing on valid dates. -/
theorem PDate.fromIso_iso (d : PDate) (h : d.valid = true) :
    PDate.fromIsoformat d.isoformat = some d := by
  obtain ⟨y, m, dd⟩ := d
  have hb : ((((1 ≤ y ∧ y ≤ 9999) ∧ 1 ≤ m) ∧ m ≤ 12) ∧ 1 ≤ dd) ∧ dd ≤ daysInMonth y m := by
    simpa [PDate.valid, Bool.and_eq_true, decide_eq_true_eq] using h
  obtain ⟨⟨⟨⟨⟨hy1, hy⟩, hm1⟩, hm⟩, hd1⟩, hdd⟩ := hb
  have hd31 : dd ≤ 31 := le_trans hdd (daysInMonth_le y m)
  exact parseIso_pad y m dd hy hm hd31 h


theorem pruefungsleistung_from_to_dict (p : Pruefungsleistung) (h : p.wf = true) :
    Pruefungsleistung.from_dict p.to_dict = some p := by
  obtain ⟨note, datum, status⟩ := p
  have hdate : PDate.fromIsoformat datum.isoformat = some datum :=
    PDate.fromIso_iso datum (by simpa [Pruefungsleistung.wf] using h)
  simp [Pruefungsleistung.from_dict, Pruefungsleistung.to_dict, asObj, asNum,
    asStr, List.lookup, hdate]

theorem modul_from_to_dict (m : Modul) (h : m.wf = true) :
    Modul.from_dict m.to_dict = some m := by
  obtain ⟨name, ects, pl⟩ := m
  cases pl with
  | none =>
      simp [Modul.from_dict, Modul.to_dict, asObj, asStr, asInt, List.lookup,
        jTruthy]
  | some p =>
      have hp : Pruefungsleistung.from_dict p.to_dict = some p :=
        pruefungsleistung_from_to_dict p (by simpa [Modul.wf] using h)
      have ht : jTruthy p.to_dict = true := by
        simp [Pruefungsleistung.to_dict, jTruthy]
      simp [Modul.from_dict, Modul.to_dict, asObj, asStr, asInt, List.lookup,
        ht, hp]

theorem modulList_roundtrip (ms : List Modul) (h : ∀ m ∈ ms, m.wf = true) :
    mapOrFail Modul.from_dict (ms.map Modul.to_dict) = some ms := by
  induction ms with
  | nil => rfl
  | cons m rest ih =>
      simp [mapOrFail, modul_from_to_dict m (h m (by simp)),
        ih (fun x hx => h x (by simp [hx]))]

theorem semester_from_to_dict (s : Semester) (h : s.wf = true) :
    Semester.from_dict s.to_dict = some s := by
  obtain ⟨nummer, geplante, ms⟩ := s
  have hms : mapOrFail Modul.from_dict (ms.map Modul.to_dict) = some ms :=
    modulList_roundtrip ms (by simpa [Semester.wf, List.all_eq_true] using h)
  simp [Semester.from_dict, Semester.to_dict, asObj, asArr, asInt, List.lookup,
    hms]

theorem semesterList_roundtrip (ss : List Semester) (h : ∀ s ∈ ss, s.wf = true) :
    mapOrFail Semester.from_dict (ss.map Semester.to_dict) = some ss := by
  induction ss with
  | nil => rfl
  | cons s rest ih =>
      simp [mapOrFail, semester_from_to_dict s (h s (by simp)),
        ih (fun x hx => h x (by simp [hx]))]

theorem studiengang_load_save (p : Studiengang) (h : p.wf = true) :
    Studiengang.load_from_file p.save_to_file = some p := by
  obtain ⟨name, gesamt, ss⟩ := p
  have hss : mapOrFail Semester.from_dict (ss.map Semester.to_dict) = some ss :=
    semesterList_roundtrip ss (by simpa [Studiengang.wf, List.all_eq_true] using h)
  simp [Studiengang.load_from_file, Studiengang.save_to_file,
    Studiengang.from_dict, Studiengang.to_dict, asObj, asArr, asStr, asInt,
    List.lookup, hss]

theorem sum_filter_ects (ms : List Modul) :
    ((ms.filter Modul.ist_bestanden).map Modul.ects).sum =
      (ms.map (fun m => if m.ist_bestanden then m.ects else 0)).sum := by
  induction ms with
  | nil => rfl
  | cons m rest ih =>
      by_cases hm : m.ist_bestanden
      · simp [List.filter_cons, hm, ih]
      · simp [List.filter_cons, hm, ih]

theorem sum_ects_pos (ms : List Modul) (hne : ms ≠ [])
    (hpos : ∀ m ∈ ms, 0 < m.ects) : 0 < (ms.map Modul.ects).sum := by
  apply List.sum_pos
  · intro x hx
    obtain ⟨m, hm, rfl⟩ := List.mem_map.mp hx
    exact hpos m hm
  · simpa using hne

theorem firstIncomplete_eq_none (ls : List Semester) :
    firstIncomplete ls = none ↔ ∀ s ∈ ls, s.ist_abgeschlossen = true := by
  induction ls with
  | nil => simp [firstIncomplete]
  | cons s rest ih =>
      by_cases hs : s.ist_abgeschlossen
      · simp [firstIncomplete, hs, ih]
      · simp [firstIncomplete, hs]

theorem firstIncomplete_eq_some (ls : List Semester) (s : Semester)
    (h : firstIncomplete ls = some s) :
    ∃ l1 l2, ls = l1 ++ s :: l2 ∧ (∀ t ∈ l1, t.ist_abgeschlossen = true) ∧
      s.ist_abgeschlossen = false := by
  induction ls with
  | nil => simp [firstIncomplete] at h
  | cons hd rest ih =>
      by_cases hhd : hd.ist_abgeschlossen
      · rw [firstIncomplete, if_pos hhd] at h
        obtain ⟨l1, l2, heq, hall, hs⟩ := ih h
        exact ⟨hd :: l1, l2, by simp [heq], by simpa [hhd] using hall, hs⟩
      · rw [firstIncomplete, if_neg hhd] at h
        obtain rfl := Option.some_injective _ h.symm
        exact ⟨[], rest, rfl, by simp, by simpa using hhd⟩

/-- C2: for every grade `g` and status `s`, an assessment record with grade
`g` and status `s` is passed iff `g ≤ 4.0` and the status is `"bestanden"`;
in particular a record with grade 1.0 and status `"nicht bestanden"` (Failed)
is not passed. -/
theorem pass_rule (g : ℚ) (d : PDate) (s : String) :
    ((Pruefungsleistung.mk g d s).ist_bestanden = true ↔
      (g ≤ 4 ∧ s = "bestanden")) ∧
    (Pruefungsleistung.mk 1 d "nicht bestanden").ist_bestanden = false := by
  constructor
  · simp [Pruefungsleistung.ist_bestanden]
  · simp [Pruefungsleistung.ist_bestanden]

/-- C3: a semester's earned credits equal the sum of the credits of its
passed modules (stated as a sum over all modules, zero for unpassed ones),
and appending a module that is not passed via `add_modul` leaves
`berechne_ects` unchanged. -/
theorem earned_credits (s : Semester) :
    (s.berechne_ects =
      (s.module.map (fun m => if m.ist_bestanden then m.ects else 0)).sum) ∧
    (∀ m : Modul, m.ist_bestanden = false →
      (s.add_modul m).berechne_ects = s.berechne_ects) := by
  constructor
  · exact sum_filter_ects s.module
  · intro m hm
    simp [Semester.add_modul, Semester.berechne_ects, List.filter_append,
      List.filter_cons, hm]

/-- C3 witness: appending the failed module `modulF` to `semWeighted` leaves
its earned credits unchanged. -/
theorem earned_credits_witness :
    modulF.ist_bestanden = false ∧
    (semWeighted.add_modul modulF).berechne_ects = semWeighted.berechne_ects :=
  ⟨by decide, (earned_credits semWeighted).2 modulF (by decide)⟩

/-- C4: a semester is complete iff its module list is non-empty and every
module in it is passed; a semester with an empty module list is never
complete (for any number and planned-credit fields). -/
theorem complete_iff (s : Semester) :
    (s.ist_abgeschlossen = true ↔
      (s.module ≠ [] ∧ ∀ m ∈ s.module, m.ist_bestanden = true)) ∧
    (∀ n g : ℤ, (Semester.mk n g []).ist_abgeschlossen = false) := by
  constructor
  · simp [Semester.ist_abgeschlossen, List.all_eq_true, List.isEmpty_iff]
  · intro n g
    rfl

/-- C4 witness: the fully passed `semWeighted` is complete, and a concrete
empty semester is not. -/
theorem complete_iff_witness :
    semWeighted.ist_abgeschlossen = true ∧
    (Semester.mk 4 30 []).ist_abgeschlossen = false :=
  ⟨(complete_iff semWeighted).1.mpr (by decide), (complete_iff semWeighted).2 4 30⟩

/-- C8: the overall progress percentage equals earned credits divided by the
total credit target times 100, and equals 0 when the target is 0. -/
theorem overall_progress (p : Studiengang) :
    (p.ects_gesamt = 0 → p.berechne_gesamtfortschritt = 0) ∧
    (0 < p.ects_gesamt →
      p.berechne_gesamtfortschritt =
        ((p.get_erreichte_ects : ℚ) / (p.ects_gesamt : ℚ)) * 100) := by
  constructor
  · intro h
    simp [Studiengang.berechne_gesamtfortschritt, h]
  · intro h
    simp [Studiengang.berechne_gesamtfortschritt, Studiengang.get_erreichte_ects, h]

/-- C8 witness: the end-to-end program (target 180, earned 5) takes the
positive branch of the formula. -/
theorem overall_progress_witness :
    exProgram.berechne_gesamtfortschritt =
      ((exProgram.get_erreichte_ects : ℚ) / ((exProgram.ects_gesamt : ℤ) : ℚ)) * 100 :=
  (overall_progress exProgram).2 (by decide)

/-- C10: an assessment record constructed without an explicit status defaults
to `"bestanden"` (Passed), so it is passed exactly when its grade is at most
4.0. -/
theorem default_status (g : ℚ) (d : PDate) :
    ({ note := g, datum := d } : Pruefungsleistung).status = "bestanden" ∧
    (({ note := g, datum := d } : Pruefungsleistung).ist_bestanden = true ↔ g ≤ 4) := by
  refine ⟨rfl, ?_⟩
  simp [Pruefungsleistung.ist_bestanden]

/-- C1: saving a Program and loading it back yields a Program with identical
name, identical total credit target, the same number of semesters, and equal
overall progress percentage and overall GPA (the round trip is in fact exact,
so equality holds outright and in particular within tolerance 0.01). The
hypothesis `P.wf` only asks that every stored date is a valid calendar date,
which Python's `datetime.date` guarantees by construction. -/
theorem save_load_roundtrip (P : Studiengang) (h : P.wf = true) :
    ∃ Q : Studiengang, Studiengang.load_from_file P.save_to_file = some Q ∧
      Q.name = P.name ∧ Q.ects_gesamt = P.ects_gesamt ∧
      Q.semester.length = P.semester.length ∧
      Q.berechne_gesamtfortschritt = P.berechne_gesamtfortschritt ∧
      Q.berechne_notenschnitt = P.berechne_notenschnitt :=
  ⟨P, studiengang_load_save P h, rfl, rfl, rfl, rfl, rfl⟩

/-- C1 witness: the concrete end-to-end program round-trips. -/
theorem save_load_roundtrip_witness :
    exProgram.wf = true ∧
    (∃ Q : Studiengang, Studiengang.load_from_file exProgram.save_to_file = some Q ∧
      Q.name = exProgram.name ∧ Q.ects_gesamt = exProgram.ects_gesamt ∧
      Q.semester.length = exProgram.semester.length ∧
      Q.berechne_gesamtfortschritt = exProgram.berechne_gesamtfortschritt ∧
      Q.berechne_notenschnitt = exProgram.berechne_notenschnitt) :=
  ⟨by decide, save_load_roundtrip exProgram (by decide)⟩

/-- C5: a semester's average grade is absent exactly when no module in it is
passed, and otherwise equals the credit-weighted mean of the grades of its
passed modules (sum of grade times credits over passed modules divided by the
sum of their credits). Credits are positive integers in the data model, which
is what the hypothesis records. -/
theorem average_grade (s : Semester) (hpos : ∀ m ∈ s.module, 0 < m.ects) :
    (s.module.filter Modul.ist_bestanden = [] → s.get_durchschnittsnote = none) ∧
    (s.module.filter Modul.ist_bestanden ≠ [] →
      s.get_durchschnittsnote = some
        ((((s.module.filter Modul.ist_bestanden).map
            (fun m => m.get_note.getD 0 * (m.ects : ℚ))).sum) /
          ((((s.module.filter Modul.ist_bestanden).map Modul.ects).sum : ℤ) : ℚ))) := by
  constructor
  · intro hf
    simp [Semester.get_durchschnittsnote, hf]
  · intro hf
    have hp : 0 < ((s.module.filter Modul.ist_bestanden).map Modul.ects).sum :=
      sum_ects_pos _ hf (fun m hm => hpos m (List.mem_of_mem_filter hm))
    have hne : (s.module.filter Modul.ist_bestanden).isEmpty = false := by
      simpa [List.isEmpty_iff] using hf
    simp [Semester.get_durchschnittsnote, hne, hp]

/-- C5 witness: two passed modules with credits 4 and 8 and grades 1.0 and
4.0 give average (4·1.0 + 8·4.0)/12 = 3.0. -/
theorem average_grade_witness :
    semWeighted.module.filter Modul.ist_bestanden ≠ [] ∧
    semWeighted.get_durchschnittsnote = some 3 := by
  refine ⟨by decide, ?_⟩
  rw [(average_grade semWeighted (by decide)).2 (by decide)]
  norm_num [semWeighted, modulA, modulB, Modul.ist_bestanden, Modul.get_note,
    Pruefungsleistung.ist_bestanden]

/-- C6: the program-level GPA equals the credit-weighted mean grade over
every passed module across every semester, and is the number 0 — its return
type is `ℚ`, not `Option ℚ` like the semester-level average — when no module
in the whole program is passed. Credits are positive integers in the data
model, which is what the hypothesis records. -/
theorem overall_gpa (p : Studiengang)
    (hpos : ∀ sem ∈ p.semester, ∀ m ∈ sem.module, 0 < m.ects) :
    ((p.semester.map (fun s => s.module.filter Modul.ist_bestanden)).flatten = [] →
      p.berechne_notenschnitt = 0) ∧
    ((p.semester.map (fun s => s.module.filter Modul.ist_bestanden)).flatten ≠ [] →
      p.berechne_notenschnitt =
        ((((p.semester.map (fun s => s.module.filter Modul.ist_bestanden)).flatten.map
            (fun m => m.get_note.getD 0 * (m.ects : ℚ))).sum) /
          ((((p.semester.map (fun s => s.module.filter Modul.ist_bestanden)).flatten.map
              Modul.ects).sum : ℤ) : ℚ))) := by
  constructor
  · intro hf
    simp [Studiengang.berechne_notenschnitt, hf]
  · intro hf
    have hmem : ∀ m ∈ (p.semester.map
        (fun s => s.module.filter Modul.ist_bestanden)).flatten, 0 < m.ects := by
      intro m hm
      obtain ⟨l, hl, hml⟩ := List.mem_flatten.mp hm
      obtain ⟨sem, hsem, rfl⟩ := List.mem_map.mp hl
      exact hpos sem hsem m (List.mem_of_mem_filter hml)
    have hp : 0 < ((p.semester.map
        (fun s => s.module.filter Modul.ist_bestanden)).flatten.map Modul.ects).sum :=
      sum_ects_pos _ hf hmem
    have hne : (p.semester.map
        (fun s => s.module.filter Modul.ist_bestanden)).flatten.isEmpty = false := by
      simpa [List.isEmpty_iff] using hf
    simp only [Studiengang.berechne_notenschnitt]
    rw [hne]
    rw [if_neg (by simp : ¬(false = true))]
    rw [if_pos hp]

/-- C6 witness: the one-semester program around the weighted-GPA semester has
overall GPA 3.0 (and a program with no passed module gets the number 0, as
the first conjunct shows when applied to a program of empty semesters). -/
theorem overall_gpa_witness :
    (exProgramW.semester.map
      (fun s => s.module.filter Modul.ist_bestanden)).flatten ≠ [] ∧
    exProgramW.berechne_notenschnitt = 3 := by
  refine ⟨by decide, ?_⟩
  rw [(overall_gpa exProgramW (by decide)).2 (by decide)]
  norm_num [exProgramW, semWeighted, modulA, modulB, Modul.ist_bestanden,
    Modul.get_note, Pruefungsleistung.ist_bestanden]

/-- C7: `get_aktuelles_semester` is `none` exactly when every semester (in
stored order) is complete, and otherwise returns the first semester in stored
insertion order that is incomplete: every semester stored before it is
complete. The characterization mentions only the stored list, never the
`nummer` field, so the selection is by position even when numbers diverge. -/
theorem current_semester (p : Studiengang) :
    (p.get_aktuelles_semester = none ↔
      ∀ s ∈ p.semester, s.ist_abgeschlossen = true) ∧
    (∀ s : Semester, p.get_aktuelles_semester = some s →
      ∃ l1 l2, p.semester = l1 ++ s :: l2 ∧
        (∀ t ∈ l1, t.ist_abgeschlossen = true) ∧ s.ist_abgeschlossen = false) := by
  constructor
  · exact firstIncomplete_eq_none p.semester
  · intro s hs
    exact firstIncomplete_eq_some p.semester s hs

/-- C7 witness: with stored order [complete, complete, incomplete,
incomplete] and `nummer` fields 4,3,2,1 diverging from the positions, the
third stored semester is selected. -/
theorem current_semester_witness :
    exProgram4.get_aktuelles_semester = some semOpenC ∧
    semOpenC.ist_abgeschlossen = false := by
  have h := (current_semester exProgram4).2 semOpenC (by decide)
  exact ⟨by decide, h.choose_spec.choose_spec.2.2⟩

/-- C9 counterexample: two malformed persisted documents that load accepts
instead of raising. First, a document missing the required `"semester"` field
(the spec's file format lists it as part of the document) loads as a Program
with no semesters, because `Studiengang.from_dict` reads the field with
`data.get("semester", [])`. Second, a document whose `"pruefungsleistung"`
field is wrongly typed — the number 0 where the format requires null or an
object — loads as a Program whose module simply has no assessment, because
the code only truthiness-tests that value
(`if data.get("pruefungsleistung"):`), and 0 is falsy. So it is not the case
that for every malformed input load raises rather than returning a
Program. -/
theorem load_malformed_accepted :
    Studiengang.load_from_file
        (.jobj [("name", .jstr "Informatik"), ("ects_gesamt", .jnum 180)]) =
      some { name := "Informatik", ects_gesamt := 180, semester := [] } ∧
    Studiengang.load_from_file
        (.jobj [("name", .jstr "Informatik"), ("ects_gesamt", .jnum 180),
          ("semester", .jarr [.jobj [("nummer", .jnum 1),
            ("geplante_ects", .jnum 30),
            ("module", .jarr [.jobj [("name", .jstr "Analysis"),
              ("ects", .jnum 5), ("pruefungsleistung", .jnum 0)]])]])]) =
      some (Studiengang.mk "Informatik" 180
        [Semester.mk 1 30 [Modul.mk "Analysis" 5 none]]) :=
  ⟨rfl, rfl⟩

set_option maxHeartbeats 1000000 in
/-- C9 (amended): document-level loading fails on a malformed date string and
on each missing scalar field — `note`, `datum`, `status` of the exam record,
`name` and `ects` of the module, `nummer` and `geplante_ects` of the
semester, `name` and `ects_gesamt` of the program — including when the
defective record is nested inside an otherwise complete document (conjuncts
1-10, and conjunct 11 for an arbitrary unparsable truthy exam value); but a
document missing the container field `"semester"`, `"module"` or
`"pruefungsleistung"` loads successfully with the missing part defaulted to
empty/absent, and a wrongly-typed falsy `"pruefungsleistung"` value is
silently ignored (conjuncts 12-15), so load is not fail-fast on every
malformed document. -/
theorem load_error_behavior :
    (∀ (pn mn ds st : String) (g n ge e q : ℚ), PDate.fromIsoformat ds = none →
      Studiengang.load_from_file (docWithExam pn g n ge mn e
        (.jobj [("note", .jnum q), ("datum", .jstr ds), ("status", .jstr st)])) =
        none) ∧
    (∀ (pn mn ds st : String) (g n ge e : ℚ),
      Studiengang.load_from_file (docWithExam pn g n ge mn e
        (.jobj [("datum", .jstr ds), ("status", .jstr st)])) = none) ∧
    (∀ (pn mn st : String) (g n ge e q : ℚ),
      Studiengang.load_from_file (docWithExam pn g n ge mn e
        (.jobj [("note", .jnum q), ("status", .jstr st)])) = none) ∧
    (∀ (pn mn ds : String) (g n ge e q : ℚ),
      Studiengang.load_from_file (docWithExam pn g n ge mn e
        (.jobj [("note", .jnum q), ("datum", .jstr ds)])) = none) ∧
    (∀ (pn : String) (g n ge e : ℚ),
      Studiengang.load_from_file (docWithModul pn g n ge
        (.jobj [("ects", .jnum e)])) = none) ∧
    (∀ (pn mn : String) (g n ge : ℚ),
      Studiengang.load_from_file (docWithModul pn g n ge
        (.jobj [("name", .jstr mn)])) = none) ∧
    (∀ (pn : String) (g ge : ℚ),
      Studiengang.load_from_file (docWithSem pn g
        (.jobj [("geplante_ects", .jnum ge), ("module", .jarr [])])) = none) ∧
    (∀ (pn : String) (g n : ℚ),
      Studiengang.load_from_file (docWithSem pn g
        (.jobj [("nummer", .jnum n), ("module", .jarr [])])) = none) ∧
    (∀ g : ℚ,
      Studiengang.load_from_file
        (.jobj [("ects_gesamt", .jnum g), ("semester", .jarr [])]) = none) ∧
    (∀ pn : String,
      Studiengang.load_from_file
        (.jobj [("name", .jstr pn), ("semester", .jarr [])]) = none) ∧
    (∀ (pn mn : String) (g n ge e : ℚ) (v : JValue), jTruthy v = true →
      Pruefungsleistung.from_dict v = none →
      Studiengang.load_from_file (docWithExam pn g n ge mn e v) = none) ∧
    (∀ (pn : String) (tgt : ℤ),
      Studiengang.load_from_file
        (.jobj [("name", .jstr pn), ("ects_gesamt", .jnum (tgt : ℚ))]) =
        some { name := pn, ects_gesamt := tgt, semester := [] }) ∧
    (∀ (pn : String) (tgt n ge : ℤ),
      Studiengang.load_from_file (docWithSem pn (tgt : ℚ)
        (.jobj [("nummer", .jnum (n : ℚ)), ("geplante_ects", .jnum (ge : ℚ))])) =
        some (Studiengang.mk pn tgt [Semester.mk n ge []])) ∧
    (∀ (pn mn : String) (tgt n ge e : ℤ),
      Studiengang.load_from_file (docWithModul pn (tgt : ℚ) (n : ℚ) (ge : ℚ)
        (.jobj [("name", .jstr mn), ("ects", .jnum (e : ℚ))])) =
        some (Studiengang.mk pn tgt [Semester.mk n ge [Modul.mk mn e none]])) ∧
    (∀ (pn mn : String) (tgt n ge e : ℤ) (v : JValue), jTruthy v = false →
      Studiengang.load_from_file
        (docWithExam pn (tgt : ℚ) (n : ℚ) (ge : ℚ) mn (e : ℚ) v) =
        some (Studiengang.mk pn tgt [Semester.mk n ge [Modul.mk mn e none]])) := by
  refine ⟨?_, ?_, ?_, ?_, ?_, ?_, ?_, ?_, ?_, ?_, ?_, ?_, ?_, ?_, ?_⟩
  · intro pn mn ds st g n ge e q hds
    simp [Studiengang.load_from_file, Studiengang.from_dict, Semester.from_dict,
      Modul.from_dict, Pruefungsleistung.from_dict, docWithExam, docWithModul,
      docWithSem, asObj, asArr, asNum, asStr, jTruthy, mapOrFail, List.lookup, hds]
  · intro pn mn ds st g n ge e
    simp [Studiengang.load_from_file, Studiengang.from_dict, Semester.from_dict,
      Modul.from_dict, Pruefungsleistung.from_dict, docWithExam, docWithModul,
      docWithSem, asObj, asArr, asNum, asStr, jTruthy, mapOrFail, List.lookup]
  · intro pn mn st g n ge e q
    simp [Studiengang.load_from_file, Studiengang.from_dict, Semester.from_dict,
      Modul.from_dict, Pruefungsleistung.from_dict, docWithExam, docWithModul,
      docWithSem, asObj, asArr, asNum, asStr, jTruthy, mapOrFail, List.lookup]
  · intro pn mn ds g n ge e q
    cases hds : PDate.fromIsoformat ds <;>
      simp [Studiengang.load_from_file, Studiengang.from_dict, Semester.from_dict,
        Modul.from_dict, Pruefungsleistung.from_dict, docWithExam, docWithModul,
        docWithSem, asObj, asArr, asNum, asStr, jTruthy, mapOrFail, List.lookup, hds]
  · intro pn g n ge e
    simp [Studiengang.load_from_file, Studiengang.from_dict, Semester.from_dict,
      Modul.from_dict, docWithModul, docWithSem, asObj, asArr, asStr,
      mapOrFail, List.lookup]
  · intro pn mn g n ge
    simp [Studiengang.load_from_file, Studiengang.from_dict, Semester.from_dict,
      Modul.from_dict, docWithModul, docWithSem, asObj, asArr, asStr, asInt,
      mapOrFail, List.lookup]
  · intro pn g ge
    simp [Studiengang.load_from_file, Studiengang.from_dict, Semester.from_dict,
      docWithSem, asObj, asArr, mapOrFail, List.lookup]
  · intro pn g n
    cases hni : asInt (.jnum n) <;>
      simp [Studiengang.load_from_file, Studiengang.from_dict,
        Semester.from_dict, docWithSem, asObj, asArr, mapOrFail, List.lookup,
        hni]
  · intro g
    simp [Studiengang.load_from_file, Studiengang.from_dict, asObj, asArr,
      mapOrFail, List.lookup]
  · intro pn
    simp [Studiengang.load_from_file, Studiengang.from_dict, asObj, asArr,
      asStr, mapOrFail, List.lookup]
  · intro pn mn g n ge e v h1 h2
    simp [Studiengang.load_from_file, Studiengang.from_dict, Semester.from_dict,
      Modul.from_dict, docWithExam, docWithModul, docWithSem, asObj, asArr,
      mapOrFail, List.lookup, h1, h2]
  · intro pn tgt
    simp [Studiengang.load_from_file, Studiengang.from_dict, asObj, asArr,
      asStr, asInt, mapOrFail, List.lookup]
  · intro pn tgt n ge
    simp [Studiengang.load_from_file, Studiengang.from_dict, Semester.from_dict,
      docWithSem, asObj, asArr, asStr, asInt, mapOrFail, List.lookup]
  · intro pn mn tgt n ge e
    simp [Studiengang.load_from_file, Studiengang.from_dict, Semester.from_dict,
      Modul.from_dict, docWithModul, docWithSem, asObj, asArr, asStr, asInt,
      mapOrFail, List.lookup]
  · intro pn mn tgt n ge e v hv
    simp [Studiengang.load_from_file, Studiengang.from_dict, Semester.from_dict,
      Modul.from_dict, docWithExam, docWithModul, docWithSem, asObj, asArr,
      asStr, asInt, mapOrFail, List.lookup, hv]

/-- C9 witness: concrete instances of the amended behavior — a full document
whose exam carries the unparsable date `"not-a-date"` fails to load; a full
document whose exam record lacks its `"note"` field (an unparsable truthy
value) fails to load; a document missing `"semester"` loads with no
semesters; and a full document with the wrongly-typed falsy exam value 0
loads with an assessment-free module. -/
theorem load_error_behavior_witness :
    Studiengang.load_from_file (docWithExam "Informatik" 180 1 30 "Analysis" 5
      (.jobj [("note", .jnum 2), ("datum", .jstr "not-a-date"),
        ("status", .jstr "bestanden")])) = none ∧
    Studiengang.load_from_file (docWithExam "Informatik" 180 1 30 "Analysis" 5
      (.jobj [("datum", .jstr "2024-01-15"), ("status", .jstr "bestanden")])) =
      none ∧
    Studiengang.load_from_file
      (.jobj [("name", .jstr "Mathematik"),
        ("ects_gesamt", .jnum ((180 : ℤ) : ℚ))]) =
      some { name := "Mathematik", ects_gesamt := 180, semester := [] } ∧
    Studiengang.load_from_file (docWithExam "Mathematik" ((180 : ℤ) : ℚ)
        ((1 : ℤ) : ℚ) ((30 : ℤ) : ℚ) "Analysis" ((5 : ℤ) : ℚ) (.jnum 0)) =
      some (Studiengang.mk "Mathematik" 180
        [Semester.mk 1 30 [Modul.mk "Analysis" 5 none]]) :=
  ⟨load_error_behavior.1 "Informatik" "Analysis" "not-a-date" "bestanden"
      180 1 30 5 2 rfl,
   (load_error_behavior.2.2.2.2.2.2.2.2.2.2.1) "Informatik" "Analysis"
      180 1 30 5
      (.jobj [("datum", .jstr "2024-01-15"), ("status", .jstr "bestanden")])
      rfl rfl,
   (load_error_behavior.2.2.2.2.2.2.2.2.2.2.2.1) "Mathematik" 180,
   (load_error_behavior.2.2.2.2.2.2.2.2.2.2.2.2.2.2) "Mathematik" "Analysis"
      180 1 30 5 (.jnum 0) rfl⟩
